import Mathlib

set_option maxHeartbeats 1000000

/-!
Shallow embedding of `extensions/amp-story/1.0/amp-story-store-service.js`:
the `actions` reducer, the `AmpStoryStoreService` class (`get`, `subscribe`,
`dispatch`, `getDefaultState_`, `getEmbedOverrides_`), and the enums
`StateProperty`, `Action` and `UIType`.

JavaScript values are modelled by `JSVal`. Numbers appearing in this module
are small integers (the `UIType` enum values and page indices), so they are
modelled as `Int`. Objects carry a reference tag `ref`, and strict equality
(`===` / `!==`) on objects compares references, as in JavaScript; object
fields are primitive-valued, which covers every payload shape this module
reads (`data.id`, `data.index`). A thrown `TypeError` (property access on
`null`/`undefined`) is modelled by `Except.error ()`. Calls to
`dev().error` are modelled by a `logged` flag in each operation's result.
-/

/-- Primitive JavaScript value (field of a payload object). -/
inductive JSPrim where
  | undef
  | null
  | bool (b : Bool)
  | num (n : Int)
  | str (s : String)
deriving DecidableEq, Repr

/-- JavaScript value: primitives plus objects with a reference tag. -/
inductive JSVal where
  | undef
  | null
  | bool (b : Bool)
  | num (n : Int)
  | str (s : String)
  | obj (ref : Nat) (fields : List (String × JSPrim))
deriving DecidableEq, Repr

/-- Inclusion of primitive values into all values. -/
def JSPrim.toVal : JSPrim → JSVal
  | .undef => .undef
  | .null => .null
  | .bool b => .bool b
  | .num n => .num n
  | .str s => .str s

/-- JavaScript double-negation coercion `!!v` to a boolean. -/
def truthy : JSVal → Bool
  | .undef => false
  | .null => false
  | .bool b => b
  | .num n => n != 0
  | .str s => s != ""
  | .obj _ _ => true

/-- JavaScript strict equality `===`; objects compare by reference. -/
def strictEq : JSVal → JSVal → Bool
  | .undef, .undef => true
  | .null, .null => true
  | .bool a, .bool b => a == b
  | .num a, .num b => a == b
  | .str a, .str b => a == b
  | .obj r _, .obj r2 _ => r == r2
  | _, _ => false

/-- JavaScript property read `v.k`: throws a TypeError on `null` and
`undefined`, yields `undefined` on primitives and missing fields. -/
def getProp (v : JSVal) (k : String) : Except Unit JSVal :=
  match v with
  | .undef => .error ()
  | .null => .error ()
  | .obj _ fields => .ok (((fields.lookup k).map JSPrim.toVal).getD .undef)
  | _ => .ok (JSVal.undef)

/-- State snapshot: a string-keyed object; `none` means the key is absent. -/
def Snapshot : Type := String → Option JSVal

/-- Write one own property on a snapshot. -/
def setKey (s : Snapshot) (k : String) (v : JSVal) : Snapshot :=
  fun q => if q = k then some v else s q

/-- Read a property, `undefined` when absent (`s[k]` in JavaScript). -/
def lookupJS (s : Snapshot) (k : String) : JSVal :=
  (s k).getD (JSVal.undef)

/-- The `hasOwn(s, k)` check used by `get` and `subscribe`. -/
def hasOwnS (s : Snapshot) (k : String) : Bool :=
  (s k).isSome

/-- Merge of `Object.assign({}, s, {overrides})`: later entries win. -/
def assignList (s : Snapshot) : List (String × JSVal) → Snapshot
  | [] => s
  | (k, v) :: rest => assignList (setKey s k v) rest

namespace StateProperty

def CAN_INSERT_AUTOMATIC_AD : String := "caninsertautomaticad"

def CAN_SHOW_BOOKEND : String := "canshowbookend"

def CAN_SHOW_NAVIGATION_OVERLAY_HINT : String := "canshownavigationoverlayhint"

def CAN_SHOW_PREVIOUS_PAGE_HELP : String := "canshowpreviouspagehelp"

def CAN_SHOW_SHARING_UIS : String := "canshowsharinguis"

def CAN_SHOW_SYSTEM_LAYER_BUTTONS : String := "canshowsystemlayerbuttons"

def ACCESS_STATE : String := "accessstate"

def AD_STATE : String := "adstate"

def BOOKEND_STATE : String := "bookendstate"

def DESKTOP_STATE : String := "desktopstate"

def HAS_SIDEBAR_STATE : String := "hassidebarstate"

def INFO_DIALOG_STATE : String := "infodialogstate"

def LANDSCAPE_STATE : String := "landscapestate"

def MUTED_STATE : String := "mutedstate"

def PAGE_HAS_AUDIO_STATE : String := "pageaudiostate"

def PAUSED_STATE : String := "pausedstate"

def RTL_STATE : String := "rtlstate"

def SHARE_MENU_STATE : String := "sharemenustate"

def SIDEBAR_STATE : String := "sidebarstate"

def SUPPORTED_BROWSER_STATE : String := "supportedbrowserstate"

def STORY_HAS_AUDIO_STATE : String := "storyaudiostate"

def UI_STATE : String := "uistate"

def CONSENT_ID : String := "consentid"

def CURRENT_PAGE_ID : String := "currentpageid"

def CURRENT_PAGE_INDEX : String := "currentpageindex"

end StateProperty

namespace Action

def CHANGE_PAGE : String := "setcurrentpageid"

def SET_CONSENT_ID : String := "setconsentid"

def TOGGLE_ACCESS : String := "toggleaccess"

def TOGGLE_AD : String := "togglead"

def TOGGLE_BOOKEND : String := "togglebookend"

def TOGGLE_INFO_DIALOG : String := "toggleinfodialog"

def TOGGLE_LANDSCAPE : String := "togglelandscape"

def TOGGLE_MUTED : String := "togglemuted"

def TOGGLE_PAGE_HAS_AUDIO : String := "togglepagehasaudio"

def TOGGLE_PAUSED : String := "togglepaused"

def TOGGLE_RTL : String := "togglertl"

def TOGGLE_SHARE_MENU : String := "togglesharemenu"

def TOGGLE_SIDEBAR : String := "togglesidebar"

def TOGGLE_HAS_SIDEBAR : String := "togglehassidebar"

def TOGGLE_SUPPORTED_BROWSER : String := "togglesupportedbrowser"

def TOGGLE_STORY_HAS_AUDIO : String := "togglestoryhasaudio"

def TOGGLE_UI : String := "toggleui"

end Action

/-- The closed `Action` enum, in source order. -/
def ActionEnum : List String :=
  [Action.CHANGE_PAGE, Action.SET_CONSENT_ID, Action.TOGGLE_ACCESS,
   Action.TOGGLE_AD, Action.TOGGLE_BOOKEND, Action.TOGGLE_INFO_DIALOG,
   Action.TOGGLE_LANDSCAPE, Action.TOGGLE_MUTED, Action.TOGGLE_PAGE_HAS_AUDIO,
   Action.TOGGLE_PAUSED, Action.TOGGLE_RTL, Action.TOGGLE_SHARE_MENU,
   Action.TOGGLE_SIDEBAR, Action.TOGGLE_HAS_SIDEBAR,
   Action.TOGGLE_SUPPORTED_BROWSER, Action.TOGGLE_STORY_HAS_AUDIO,
   Action.TOGGLE_UI]

namespace UIType

def MOBILE : JSVal := .num 0

def DESKTOP : JSVal := .num 1

def SCROLL : JSVal := .num 2

end UIType

/-- Result of the reducer: `fresh = none` means the reducer returned its
input state (the very same object reference); `fresh = some s` means it
returned the freshly allocated snapshot `s`. `logged` records whether
`dev().error` was called (unknown action). -/
structure ActOut where
  fresh : Option Snapshot
  logged : Bool

/-- Snapshot actually produced, given the input state. -/
def ActOut.result (st : Snapshot) (o : ActOut) : Snapshot :=
  o.fresh.getD st

/-- The reducer `actions(state, action, data)` of the source, case for case.
Each `Object.assign({}, state, {...})` becomes `assignList state [...]`. -/
def actions (state : Snapshot) (action : String) (data : JSVal) : Except Unit ActOut :=
  if action = Action.TOGGLE_ACCESS then
    if strictEq (lookupJS state StateProperty.ACCESS_STATE) data then
      .ok ⟨none, false⟩
    else
      .ok ⟨some (assignList state
        [(StateProperty.ACCESS_STATE, .bool (truthy data)),
         (StateProperty.PAUSED_STATE, .bool (truthy data))]), false⟩
  else if action = Action.TOGGLE_AD then
    .ok ⟨some (assignList state
      [(StateProperty.AD_STATE, .bool (truthy data))]), false⟩
  else if action = Action.TOGGLE_BOOKEND then
    if !truthy (lookupJS state StateProperty.CAN_SHOW_BOOKEND) then
      .ok ⟨none, false⟩
    else
      .ok ⟨some (assignList state
        [(StateProperty.BOOKEND_STATE, .bool (truthy data))]), false⟩
  else if action = Action.TOGGLE_INFO_DIALOG then
    .ok ⟨some (assignList state
      [(StateProperty.INFO_DIALOG_STATE, .bool (truthy data)),
       (StateProperty.PAUSED_STATE, .bool (truthy data))]), false⟩
  else if action = Action.TOGGLE_STORY_HAS_AUDIO then
    .ok ⟨some (assignList state
      [(StateProperty.STORY_HAS_AUDIO_STATE, .bool (truthy data))]), false⟩
  else if action = Action.TOGGLE_LANDSCAPE then
    .ok ⟨some (assignList state
      [(StateProperty.LANDSCAPE_STATE, .bool (truthy data))]), false⟩
  else if action = Action.TOGGLE_MUTED then
    .ok ⟨some (assignList state
      [(StateProperty.MUTED_STATE, .bool (truthy data))]), false⟩
  else if action = Action.TOGGLE_PAGE_HAS_AUDIO then
    .ok ⟨some (assignList state
      [(StateProperty.PAGE_HAS_AUDIO_STATE, .bool (truthy data))]), false⟩
  else if action = Action.TOGGLE_PAUSED then
    .ok ⟨some (assignList state
      [(StateProperty.PAUSED_STATE, .bool (truthy data))]), false⟩
  else if action = Action.TOGGLE_RTL then
    .ok ⟨some (assignList state
      [(StateProperty.RTL_STATE, .bool (truthy data))]), false⟩
  else if action = Action.TOGGLE_SIDEBAR then
    if strictEq (lookupJS state StateProperty.SIDEBAR_STATE) data then
      .ok ⟨none, false⟩
    else
      .ok ⟨some (assignList state
        [(StateProperty.PAUSED_STATE, .bool (truthy data)),
         (StateProperty.SIDEBAR_STATE, .bool (truthy data))]), false⟩
  else if action = Action.TOGGLE_HAS_SIDEBAR then
    .ok ⟨some (assignList state
      [(StateProperty.HAS_SIDEBAR_STATE, .bool (truthy data))]), false⟩
  else if action = Action.TOGGLE_SUPPORTED_BROWSER then
    .ok ⟨some (assignList state
      [(StateProperty.SUPPORTED_BROWSER_STATE, .bool (truthy data))]), false⟩
  else if action = Action.TOGGLE_SHARE_MENU then
    .ok ⟨some (assignList state
      [(StateProperty.PAUSED_STATE, .bool (truthy data)),
       (StateProperty.SHARE_MENU_STATE, .bool (truthy data))]), false⟩
  else if action = Action.TOGGLE_UI then
    .ok ⟨some (assignList state
      [(StateProperty.DESKTOP_STATE, .bool (strictEq data UIType.DESKTOP)),
       (StateProperty.UI_STATE, data)]), false⟩
  else if action = Action.SET_CONSENT_ID then
    .ok ⟨some (assignList state
      [(StateProperty.CONSENT_ID, data)]), false⟩
  else if action = Action.CHANGE_PAGE then
    match getProp data "id", getProp data "index" with
    | .ok i, .ok ix =>
      .ok ⟨some (assignList state
        [(StateProperty.CURRENT_PAGE_ID, i),
         (StateProperty.CURRENT_PAGE_INDEX, ix)]), false⟩
    | .error e, _ => .error e
    | _, .error e => .error e
  else
    .ok ⟨none, true⟩

/-- One entry of the listener registry `listeners_`: a state key and its
`Observable`'s handlers (opaque listener identifiers, in the order they
were added). Entries appear in the order keys were first subscribed,
matching `Object.keys(this.listeners_)` insertion order. -/
structure SubEntry where
  key : String
  fns : List Nat
deriving DecidableEq, Repr

/-- The `AmpStoryStoreService` instance: current snapshot plus the
listener registry. -/
structure Store where
  state : Snapshot
  listeners : List SubEntry

/-- Result of `get`: the returned value and whether `dev().error` ran. -/
structure GetOut where
  value : JSVal
  logged : Bool
deriving DecidableEq, Repr

/-- Result of `subscribe`: the updated store, the synchronous listener
invocations `(listener, argument)` it performed, and the log flag. -/
structure SubscribeOut where
  store : Store
  events : List (Nat × JSVal)
  logged : Bool

/-- Result of `dispatch`: the updated store, the listener invocations
`(listener, argument)` fired in registry order (per key, subscription
order), and the log flag. -/
structure DispatchOut where
  store : Store
  events : List (Nat × JSVal)
  logged : Bool

/-- The `get(key)` method: developer error and `undefined` on an unknown
key, otherwise the current value. -/
def Store.get (st : Store) (key : String) : GetOut :=
  if hasOwnS st.state key then ⟨lookupJS st.state key, false⟩
  else ⟨.undef, true⟩

/-- Add a listener to `listeners_[key]`, creating the `Observable` (a new
registry entry at the end) when the key has none yet. -/
def addListener : List SubEntry → String → Nat → List SubEntry
  | [], key, l => [⟨key, [l]⟩]
  | e :: rest, key, l =>
    if e.key = key then ⟨key, e.fns ++ [l]⟩ :: rest
    else e :: addListener rest key l

/-- The `subscribe(key, listener, callToInitialize)` method. -/
def Store.subscribe (st : Store) (key : String) (l : Nat) (callInit : Bool) :
    SubscribeOut :=
  if hasOwnS st.state key then
    if callInit then
      ⟨⟨st.state, addListener st.listeners key l⟩,
       [(l, lookupJS st.state key)], false⟩
    else
      ⟨⟨st.state, addListener st.listeners key l⟩, [], false⟩
  else ⟨st, [], true⟩

/-- Listener invocations performed by `dispatch`: for each registry key
whose value differs (`!==`) between the old and new snapshots, fire that
key's handlers in order with the new value. -/
def firedEvents (old new : Snapshot) (ls : List SubEntry) : List (Nat × JSVal) :=
  (ls.filter fun e => !(strictEq (lookupJS old e.key) (lookupJS new e.key))).flatMap
    fun e => e.fns.map fun l => (l, lookupJS new e.key)

/-- The `dispatch(action, data)` method: run the reducer, install its
result, then notify; a reducer exception propagates before the state is
replaced. -/
def Store.dispatch (st : Store) (action : String) (data : JSVal) :
    Except Unit DispatchOut :=
  match actions st.state action data with
  | .error e => .error e
  | .ok out =>
    .ok ⟨⟨out.result st.state, st.listeners⟩,
         firedEvents st.state (out.result st.state) st.listeners,
         out.logged⟩

/-- Entries of `getDefaultState_()`, in source order. -/
def defaultStateList : List (String × JSVal) :=
  [(StateProperty.CAN_INSERT_AUTOMATIC_AD, .bool true),
   (StateProperty.CAN_SHOW_BOOKEND, .bool true),
   (StateProperty.CAN_SHOW_NAVIGATION_OVERLAY_HINT, .bool true),
   (StateProperty.CAN_SHOW_PREVIOUS_PAGE_HELP, .bool true),
   (StateProperty.CAN_SHOW_SHARING_UIS, .bool true),
   (StateProperty.CAN_SHOW_SYSTEM_LAYER_BUTTONS, .bool true),
   (StateProperty.ACCESS_STATE, .bool false),
   (StateProperty.AD_STATE, .bool false),
   (StateProperty.BOOKEND_STATE, .bool false),
   (StateProperty.DESKTOP_STATE, .bool false),
   (StateProperty.INFO_DIALOG_STATE, .bool false),
   (StateProperty.LANDSCAPE_STATE, .bool false),
   (StateProperty.MUTED_STATE, .bool true),
   (StateProperty.PAGE_HAS_AUDIO_STATE, .bool false),
   (StateProperty.PAUSED_STATE, .bool false),
   (StateProperty.RTL_STATE, .bool false),
   (StateProperty.SHARE_MENU_STATE, .bool false),
   (StateProperty.SIDEBAR_STATE, .bool false),
   (StateProperty.SUPPORTED_BROWSER_STATE, .bool true),
   (StateProperty.STORY_HAS_AUDIO_STATE, .bool false),
   (StateProperty.HAS_SIDEBAR_STATE, .bool false),
   (StateProperty.UI_STATE, UIType.MOBILE),
   (StateProperty.CONSENT_ID, .null),
   (StateProperty.CURRENT_PAGE_ID, .str ""),
   (StateProperty.CURRENT_PAGE_INDEX, .num 0)]

/-- The snapshot returned by `getDefaultState_()`. -/
def defaultState : Snapshot :=
  fun k => defaultStateList.lookup k

/-- Modelled from the spec: the `EmbedMode` enum imported from
`embed-mode.js` is not part of the sources; only its closed set of
identifiers (default / NAME_TBD / NO_SHARING) matters here. -/
inductive EmbedMode where
  | defaultMode
  | nameTbd
  | noSharing
deriving DecidableEq, Repr

/-- The override partial state returned by `getEmbedOverrides_()` for each
embed mode, from the source's switch. -/
def getEmbedOverrides : EmbedMode → List (String × JSVal)
  | .nameTbd =>
    [(StateProperty.CAN_INSERT_AUTOMATIC_AD, .bool false),
     (StateProperty.CAN_SHOW_BOOKEND, .bool false),
     (StateProperty.CAN_SHOW_NAVIGATION_OVERLAY_HINT, .bool false),
     (StateProperty.CAN_SHOW_PREVIOUS_PAGE_HELP, .bool true),
     (StateProperty.CAN_SHOW_SYSTEM_LAYER_BUTTONS, .bool false),
     (StateProperty.MUTED_STATE, .bool false)]
  | .noSharing =>
    [(StateProperty.CAN_SHOW_SHARING_UIS, .bool false)]
  | .defaultMode => []

/-- The constructor's initial snapshot:
`Object.assign({}, getDefaultState_(), getEmbedOverrides_())`. -/
def initialState (m : EmbedMode) : Snapshot :=
  assignList defaultState (getEmbedOverrides m)

/-- A freshly constructed store (no listeners yet). -/
def initialStore (m : EmbedMode) : Store :=
  ⟨initialState m, []⟩

/-- Stores reachable from `s` by successful dispatches. -/
inductive Reaches (s : Store) : Store → Prop where
  | refl : Reaches s s
  | step {a : Store} (action : String) (data : JSVal) (out : DispatchOut) :
      Reaches s a → a.dispatch action data = .ok out → Reaches s out.store

/-- The boolean-typed state keys of the `State` typedef. -/
def boolStateKeys : List String :=
  [StateProperty.CAN_INSERT_AUTOMATIC_AD, StateProperty.CAN_SHOW_BOOKEND,
   StateProperty.CAN_SHOW_NAVIGATION_OVERLAY_HINT,
   StateProperty.CAN_SHOW_PREVIOUS_PAGE_HELP,
   StateProperty.CAN_SHOW_SHARING_UIS,
   StateProperty.CAN_SHOW_SYSTEM_LAYER_BUTTONS,
   StateProperty.ACCESS_STATE, StateProperty.AD_STATE,
   StateProperty.BOOKEND_STATE, StateProperty.DESKTOP_STATE,
   StateProperty.HAS_SIDEBAR_STATE, StateProperty.INFO_DIALOG_STATE,
   StateProperty.LANDSCAPE_STATE, StateProperty.MUTED_STATE,
   StateProperty.PAGE_HAS_AUDIO_STATE, StateProperty.PAUSED_STATE,
   StateProperty.RTL_STATE, StateProperty.SHARE_MENU_STATE,
   StateProperty.SIDEBAR_STATE, StateProperty.STORY_HAS_AUDIO_STATE,
   StateProperty.SUPPORTED_BROWSER_STATE]

/-- Every boolean-typed key currently holds a strict boolean. -/
def BoolInv (s : Snapshot) : Prop :=
  ∀ k ∈ boolStateKeys, ∃ b : Bool, s k = some (.bool b)

/-- Keys each known action may write, per the spec's per-action rules. -/
def frameOf : String → List String
  | "toggleaccess" => [StateProperty.ACCESS_STATE, StateProperty.PAUSED_STATE]
  | "togglead" => [StateProperty.AD_STATE]
  | "togglebookend" => [StateProperty.BOOKEND_STATE]
  | "toggleinfodialog" =>
    [StateProperty.INFO_DIALOG_STATE, StateProperty.PAUSED_STATE]
  | "togglestoryhasaudio" => [StateProperty.STORY_HAS_AUDIO_STATE]
  | "togglelandscape" => [StateProperty.LANDSCAPE_STATE]
  | "togglemuted" => [StateProperty.MUTED_STATE]
  | "togglepagehasaudio" => [StateProperty.PAGE_HAS_AUDIO_STATE]
  | "togglepaused" => [StateProperty.PAUSED_STATE]
  | "togglertl" => [StateProperty.RTL_STATE]
  | "togglesidebar" =>
    [StateProperty.PAUSED_STATE, StateProperty.SIDEBAR_STATE]
  | "togglehassidebar" => [StateProperty.HAS_SIDEBAR_STATE]
  | "togglesupportedbrowser" => [StateProperty.SUPPORTED_BROWSER_STATE]
  | "togglesharemenu" =>
    [StateProperty.PAUSED_STATE, StateProperty.SHARE_MENU_STATE]
  | "toggleui" => [StateProperty.DESKTOP_STATE, StateProperty.UI_STATE]
  | "setconsentid" => [StateProperty.CONSENT_ID]
  | "setcurrentpageid" =>
    [StateProperty.CURRENT_PAGE_ID, StateProperty.CURRENT_PAGE_INDEX]
  | _ => []

/-- Store whose access-state is already `true` (paused-state keeps its
default `false`); exhibits the `TOGGLE_ACCESS` no-op guard. -/
def accessTrueStore : Store :=
  ⟨setKey defaultState StateProperty.ACCESS_STATE (.bool true), []⟩

/-- Store after `dispatch(TOGGLE_ACCESS, true)` from a fresh default store. -/
def accessBothOnStore : Store :=
  ⟨assignList (initialState .defaultMode)
    [(StateProperty.ACCESS_STATE, .bool true),
     (StateProperty.PAUSED_STATE, .bool true)], []⟩

/-- Store after a further `dispatch(TOGGLE_ACCESS, false)`. -/
def accessBothOffStore : Store :=
  ⟨assignList accessBothOnStore.state
    [(StateProperty.ACCESS_STATE, .bool false),
     (StateProperty.PAUSED_STATE, .bool false)], []⟩

/-- Store after `dispatch(TOGGLE_SIDEBAR, true)` from a fresh default store. -/
def sidebarStore : Store :=
  ⟨assignList (initialState .defaultMode)
    [(StateProperty.PAUSED_STATE, .bool true),
     (StateProperty.SIDEBAR_STATE, .bool true)], []⟩

/-- Default-state store with one listener (id 7) on the muted-state key. -/
def mutedListenerStore : Store :=
  ⟨defaultState, [⟨StateProperty.MUTED_STATE, [7]⟩]⟩

/-- Result of `dispatch(TOGGLE_PAUSED, true)` on `mutedListenerStore`. -/
def pausedDispatchOut : DispatchOut :=
  ⟨⟨assignList defaultState [(StateProperty.PAUSED_STATE, .bool true)],
    [⟨StateProperty.MUTED_STATE, [7]⟩]⟩, [], false⟩

/-- Store after `dispatch(TOGGLE_UI, DESKTOP)` from a fresh default store. -/
def desktopStore : Store :=
  ⟨assignList (initialState .defaultMode)
    [(StateProperty.DESKTOP_STATE, .bool true),
     (StateProperty.UI_STATE, UIType.DESKTOP)], []⟩

/-- Strict equality is reflexive (no NaN in the integer number model). -/
lemma strictEq_refl (v : JSVal) : strictEq v v = true := by
  cases v <;> simp [strictEq]

/-- A value strictly equal to a boolean is that boolean. -/
lemma strictEq_bool_iff (v : JSVal) (b : Bool) :
    strictEq v (.bool b) = true ↔ v = .bool b := by
  cases v <;> simp [strictEq]

/-- Reading the key just written. -/
lemma setKey_self (s : Snapshot) (k : String) (v : JSVal) :
    setKey s k v k = some v := by
  simp [setKey]

/-- Reading a different key after a write. -/
lemma setKey_ne (s : Snapshot) (k : String) (v : JSVal) (q : String)
    (h : q ≠ k) : setKey s k v q = s q := by
  simp [setKey, h]

/-- Writes never remove keys. -/
lemma setKey_isSome (s : Snapshot) (k : String) (v : JSVal) (q : String)
    (h : (s q).isSome = true) : ((setKey s k v) q).isSome = true := by
  by_cases hq : q = k <;> simp [setKey, hq, h]

/-- A merge leaves keys outside its own key set untouched. -/
lemma assignList_not_mem (L : List (String × JSVal)) (s : Snapshot)
    (k : String) (h : ∀ p ∈ L, k ≠ p.1) : assignList s L k = s k := by
  induction L generalizing s with
  | nil => rfl
  | cons p rest ih =>
    obtain ⟨k1, v1⟩ := p
    have hk1 : k ≠ k1 := h _ (List.mem_cons_self _ _)
    rw [assignList, ih _ fun q hq => h q (List.mem_cons_of_mem _ hq),
      setKey_ne _ _ _ _ hk1]

/-- Merges never remove keys. -/
lemma assignList_isSome (L : List (String × JSVal)) (s : Snapshot)
    (k : String) (h : (s k).isSome = true) :
    ((assignList s L) k).isSome = true := by
  induction L generalizing s with
  | nil => exact h
  | cons p rest ih =>
    obtain ⟨k1, v1⟩ := p
    exact ih _ (setKey_isSome _ _ _ _ h)

/-- Writing strict booleans into boolean keys preserves `BoolInv`. -/
lemma BoolInv_setKey (s : Snapshot) (k : String) (v : JSVal)
    (hs : BoolInv s) (hv : k ∈ boolStateKeys → ∃ b : Bool, v = .bool b) :
    BoolInv (setKey s k v) := by
  intro q hq
  by_cases hqk : q = k
  · subst hqk
    obtain ⟨b, hb⟩ := hv hq
    exact ⟨b, by simp [setKey, hb]⟩
  · obtain ⟨b, hb⟩ := hs q hq
    exact ⟨b, by simp [setKey, hqk, hb]⟩

/-- A merge whose boolean-key entries are strict booleans preserves
`BoolInv`. -/
lemma BoolInv_assignList (L : List (String × JSVal)) (s : Snapshot)
    (hs : BoolInv s)
    (hL : ∀ p ∈ L, p.1 ∈ boolStateKeys → ∃ b : Bool, p.2 = .bool b) :
    BoolInv (assignList s L) := by
  induction L generalizing s with
  | nil => exact hs
  | cons p rest ih =>
    obtain ⟨k1, v1⟩ := p
    exact ih _ (BoolInv_setKey _ _ _ hs (hL _ (List.mem_cons_self _ _)))
      fun q hq => hL q (List.mem_cons_of_mem _ hq)

/-- No notifications fire when the snapshot did not change. -/
lemma firedEvents_self (s : Snapshot) (ls : List SubEntry) :
    firedEvents s s ls = [] := by
  have h : (ls.filter fun e =>
      !(strictEq (lookupJS s e.key) (lookupJS s e.key))) = [] :=
    List.filter_eq_nil_iff.mpr fun e _ => by simp [strictEq_refl]
  simp [firedEvents, h]

/-- Membership in the fired-event list, unfolded. -/
lemma mem_firedEvents (old new : Snapshot) (ls : List SubEntry)
    (l : Nat) (v : JSVal) :
    (l, v) ∈ firedEvents old new ls ↔
      ∃ e ∈ ls, l ∈ e.fns ∧
        strictEq (lookupJS old e.key) (lookupJS new e.key) = false ∧
        v = lookupJS new e.key := by
  simp only [firedEvents, List.mem_flatMap, List.mem_filter, List.mem_map,
    Bool.not_eq_true', Prod.mk.injEq]
  constructor
  · rintro ⟨e, ⟨he, hch⟩, l', hl', rfl, rfl⟩
    exact ⟨e, he, hl', hch, rfl⟩
  · rintro ⟨e, he, hl, hch, rfl⟩
    exact ⟨e, ⟨he, hch⟩, l, hl, rfl, rfl⟩

/-- Reducer equation for the `TOGGLE_ACCESS` case. -/
lemma actions_toggleAccess (s : Snapshot) (d : JSVal) :
    actions s Action.TOGGLE_ACCESS d =
      if strictEq (lookupJS s StateProperty.ACCESS_STATE) d then
        .ok ⟨none, false⟩
      else
        .ok ⟨some (assignList s
          [(StateProperty.ACCESS_STATE, .bool (truthy d)),
           (StateProperty.PAUSED_STATE, .bool (truthy d))]), false⟩ := by
  simp [actions]

/-- Reducer equation for the `TOGGLE_AD` case. -/
lemma actions_toggleAd (s : Snapshot) (d : JSVal) :
    actions s Action.TOGGLE_AD d =
      .ok ⟨some (assignList s
        [(StateProperty.AD_STATE, .bool (truthy d))]), false⟩ := by
  simp [actions, Action.TOGGLE_AD, Action.TOGGLE_ACCESS]

/-- Reducer equation for the `TOGGLE_BOOKEND` case. -/
lemma actions_toggleBookend (s : Snapshot) (d : JSVal) :
    actions s Action.TOGGLE_BOOKEND d =
      if !truthy (lookupJS s StateProperty.CAN_SHOW_BOOKEND) then
        .ok ⟨none, false⟩
      else
        .ok ⟨some (assignList s
          [(StateProperty.BOOKEND_STATE, .bool (truthy d))]), false⟩ := by
  simp [actions, Action.TOGGLE_BOOKEND, Action.TOGGLE_ACCESS, Action.TOGGLE_AD]

/-- Reducer equation for the `TOGGLE_INFO_DIALOG` case. -/
lemma actions_toggleInfoDialog (s : Snapshot) (d : JSVal) :
    actions s Action.TOGGLE_INFO_DIALOG d =
      .ok ⟨some (assignList s
        [(StateProperty.INFO_DIALOG_STATE, .bool (truthy d)),
         (StateProperty.PAUSED_STATE, .bool (truthy d))]), false⟩ := by
  simp [actions, Action.TOGGLE_INFO_DIALOG, Action.TOGGLE_ACCESS,
    Action.TOGGLE_AD, Action.TOGGLE_BOOKEND]

/-- Reducer equation for the `TOGGLE_STORY_HAS_AUDIO` case. -/
lemma actions_toggleStoryHasAudio (s : Snapshot) (d : JSVal) :
    actions s Action.TOGGLE_STORY_HAS_AUDIO d =
      .ok ⟨some (assignList s
        [(StateProperty.STORY_HAS_AUDIO_STATE, .bool (truthy d))]), false⟩ := by
  simp [actions, Action.TOGGLE_STORY_HAS_AUDIO, Action.TOGGLE_ACCESS,
    Action.TOGGLE_AD, Action.TOGGLE_BOOKEND, Action.TOGGLE_INFO_DIALOG]

/-- Reducer equation for the `TOGGLE_LANDSCAPE` case. -/
lemma actions_toggleLandscape (s : Snapshot) (d : JSVal) :
    actions s Action.TOGGLE_LANDSCAPE d =
      .ok ⟨some (assignList s
        [(StateProperty.LANDSCAPE_STATE, .bool (truthy d))]), false⟩ := by
  simp [actions, Action.TOGGLE_LANDSCAPE, Action.TOGGLE_ACCESS,
    Action.TOGGLE_AD, Action.TOGGLE_BOOKEND, Action.TOGGLE_INFO_DIALOG,
    Action.TOGGLE_STORY_HAS_AUDIO]

/-- Reducer equation for the `TOGGLE_MUTED` case. -/
lemma actions_toggleMuted (s : Snapshot) (d : JSVal) :
    actions s Action.TOGGLE_MUTED d =
      .ok ⟨some (assignList s
        [(StateProperty.MUTED_STATE, .bool (truthy d))]), false⟩ := by
  simp [actions, Action.TOGGLE_MUTED, Action.TOGGLE_ACCESS,
    Action.TOGGLE_AD, Action.TOGGLE_BOOKEND, Action.TOGGLE_INFO_DIALOG,
    Action.TOGGLE_STORY_HAS_AUDIO, Action.TOGGLE_LANDSCAPE]

/-- Reducer equation for the `TOGGLE_PAGE_HAS_AUDIO` case. -/
lemma actions_togglePageHasAudio (s : Snapshot) (d : JSVal) :
    actions s Action.TOGGLE_PAGE_HAS_AUDIO d =
      .ok ⟨some (assignList s
        [(StateProperty.PAGE_HAS_AUDIO_STATE, .bool (truthy d))]), false⟩ := by
  simp [actions, Action.TOGGLE_PAGE_HAS_AUDIO, Action.TOGGLE_ACCESS,
    Action.TOGGLE_AD, Action.TOGGLE_BOOKEND, Action.TOGGLE_INFO_DIALOG,
    Action.TOGGLE_STORY_HAS_AUDIO, Action.TOGGLE_LANDSCAPE,
    Action.TOGGLE_MUTED]

/-- Reducer equation for the `TOGGLE_PAUSED` case. -/
lemma actions_togglePaused (s : Snapshot) (d : JSVal) :
    actions s Action.TOGGLE_PAUSED d =
      .ok ⟨some (assignList s
        [(StateProperty.PAUSED_STATE, .bool (truthy d))]), false⟩ := by
  simp [actions, Action.TOGGLE_PAUSED, Action.TOGGLE_ACCESS,
    Action.TOGGLE_AD, Action.TOGGLE_BOOKEND, Action.TOGGLE_INFO_DIALOG,
    Action.TOGGLE_STORY_HAS_AUDIO, Action.TOGGLE_LANDSCAPE,
    Action.TOGGLE_MUTED, Action.TOGGLE_PAGE_HAS_AUDIO]

/-- Reducer equation for the `TOGGLE_RTL` case. -/
lemma actions_toggleRtl (s : Snapshot) (d : JSVal) :
    actions s Action.TOGGLE_RTL d =
      .ok ⟨some (assignList s
        [(StateProperty.RTL_STATE, .bool (truthy d))]), false⟩ := by
  simp [actions, Action.TOGGLE_RTL, Action.TOGGLE_ACCESS,
    Action.TOGGLE_AD, Action.TOGGLE_BOOKEND, Action.TOGGLE_INFO_DIALOG,
    Action.TOGGLE_STORY_HAS_AUDIO, Action.TOGGLE_LANDSCAPE,
    Action.TOGGLE_MUTED, Action.TOGGLE_PAGE_HAS_AUDIO, Action.TOGGLE_PAUSED]

/-- Reducer equation for the `TOGGLE_SIDEBAR` case. -/
lemma actions_toggleSidebar (s : Snapshot) (d : JSVal) :
    actions s Action.TOGGLE_SIDEBAR d =
      if strictEq (lookupJS s StateProperty.SIDEBAR_STATE) d then
        .ok ⟨none, false⟩
      else
        .ok ⟨some (assignList s
          [(StateProperty.PAUSED_STATE, .bool (truthy d)),
           (StateProperty.SIDEBAR_STATE, .bool (truthy d))]), false⟩ := by
  simp [actions, Action.TOGGLE_SIDEBAR, Action.TOGGLE_ACCESS,
    Action.TOGGLE_AD, Action.TOGGLE_BOOKEND, Action.TOGGLE_INFO_DIALOG,
    Action.TOGGLE_STORY_HAS_AUDIO, Action.TOGGLE_LANDSCAPE,
    Action.TOGGLE_MUTED, Action.TOGGLE_PAGE_HAS_AUDIO, Action.TOGGLE_PAUSED,
    Action.TOGGLE_RTL]

/-- Reducer equation for the `TOGGLE_HAS_SIDEBAR` case. -/
lemma actions_toggleHasSidebar (s : Snapshot) (d : JSVal) :
    actions s Action.TOGGLE_HAS_SIDEBAR d =
      .ok ⟨some (assignList s
        [(StateProperty.HAS_SIDEBAR_STATE, .bool (truthy d))]), false⟩ := by
  simp [actions, Action.TOGGLE_HAS_SIDEBAR, Action.TOGGLE_ACCESS,
    Action.TOGGLE_AD, Action.TOGGLE_BOOKEND, Action.TOGGLE_INFO_DIALOG,
    Action.TOGGLE_STORY_HAS_AUDIO, Action.TOGGLE_LANDSCAPE,
    Action.TOGGLE_MUTED, Action.TOGGLE_PAGE_HAS_AUDIO, Action.TOGGLE_PAUSED,
    Action.TOGGLE_RTL, Action.TOGGLE_SIDEBAR]

/-- Reducer equation for the `TOGGLE_SUPPORTED_BROWSER` case. -/
lemma actions_toggleSupportedBrowser (s : Snapshot) (d : JSVal) :
    actions s Action.TOGGLE_SUPPORTED_BROWSER d =
      .ok ⟨some (assignList s
        [(StateProperty.SUPPORTED_BROWSER_STATE, .bool (truthy d))]), false⟩ := by
  simp [actions, Action.TOGGLE_SUPPORTED_BROWSER, Action.TOGGLE_ACCESS,
    Action.TOGGLE_AD, Action.TOGGLE_BOOKEND, Action.TOGGLE_INFO_DIALOG,
    Action.TOGGLE_STORY_HAS_AUDIO, Action.TOGGLE_LANDSCAPE,
    Action.TOGGLE_MUTED, Action.TOGGLE_PAGE_HAS_AUDIO, Action.TOGGLE_PAUSED,
    Action.TOGGLE_RTL, Action.TOGGLE_SIDEBAR, Action.TOGGLE_HAS_SIDEBAR]

/-- Reducer equation for the `TOGGLE_SHARE_MENU` case. -/
lemma actions_toggleShareMenu (s : Snapshot) (d : JSVal) :
    actions s Action.TOGGLE_SHARE_MENU d =
      .ok ⟨some (assignList s
        [(StateProperty.PAUSED_STATE, .bool (truthy d)),
         (StateProperty.SHARE_MENU_STATE, .bool (truthy d))]), false⟩ := by
  simp [actions, Action.TOGGLE_SHARE_MENU, Action.TOGGLE_ACCESS,
    Action.TOGGLE_AD, Action.TOGGLE_BOOKEND, Action.TOGGLE_INFO_DIALOG,
    Action.TOGGLE_STORY_HAS_AUDIO, Action.TOGGLE_LANDSCAPE,
    Action.TOGGLE_MUTED, Action.TOGGLE_PAGE_HAS_AUDIO, Action.TOGGLE_PAUSED,
    Action.TOGGLE_RTL, Action.TOGGLE_SIDEBAR, Action.TOGGLE_HAS_SIDEBAR,
    Action.TOGGLE_SUPPORTED_BROWSER]

/-- Reducer equation for the `TOGGLE_UI` case. -/
lemma actions_toggleUi (s : Snapshot) (d : JSVal) :
    actions s Action.TOGGLE_UI d =
      .ok ⟨some (assignList s
        [(StateProperty.DESKTOP_STATE, .bool (strictEq d UIType.DESKTOP)),
         (StateProperty.UI_STATE, d)]), false⟩ := by
  simp [actions, Action.TOGGLE_UI, Action.TOGGLE_ACCESS,
    Action.TOGGLE_AD, Action.TOGGLE_BOOKEND, Action.TOGGLE_INFO_DIALOG,
    Action.TOGGLE_STORY_HAS_AUDIO, Action.TOGGLE_LANDSCAPE,
    Action.TOGGLE_MUTED, Action.TOGGLE_PAGE_HAS_AUDIO, Action.TOGGLE_PAUSED,
    Action.TOGGLE_RTL, Action.TOGGLE_SIDEBAR, Action.TOGGLE_HAS_SIDEBAR,
    Action.TOGGLE_SUPPORTED_BROWSER, Action.TOGGLE_SHARE_MENU]

/-- Reducer equation for the `SET_CONSENT_ID` case. -/
lemma actions_setConsentId (s : Snapshot) (d : JSVal) :
    actions s Action.SET_CONSENT_ID d =
      .ok ⟨some (assignList s
        [(StateProperty.CONSENT_ID, d)]), false⟩ := by
  simp [actions, Action.SET_CONSENT_ID, Action.TOGGLE_ACCESS,
    Action.TOGGLE_AD, Action.TOGGLE_BOOKEND, Action.TOGGLE_INFO_DIALOG,
    Action.TOGGLE_STORY_HAS_AUDIO, Action.TOGGLE_LANDSCAPE,
    Action.TOGGLE_MUTED, Action.TOGGLE_PAGE_HAS_AUDIO, Action.TOGGLE_PAUSED,
    Action.TOGGLE_RTL, Action.TOGGLE_SIDEBAR, Action.TOGGLE_HAS_SIDEBAR,
    Action.TOGGLE_SUPPORTED_BROWSER, Action.TOGGLE_SHARE_MENU,
    Action.TOGGLE_UI]

/-- Reducer equation for the `CHANGE_PAGE` case. -/
lemma actions_changePage (s : Snapshot) (d : JSVal) :
    actions s Action.CHANGE_PAGE d =
      match getProp d "id", getProp d "index" with
      | .ok i, .ok ix =>
        .ok ⟨some (assignList s
          [(StateProperty.CURRENT_PAGE_ID, i),
           (StateProperty.CURRENT_PAGE_INDEX, ix)]), false⟩
      | .error e, _ => .error e
      | _, .error e => .error e := by
  simp [actions, Action.CHANGE_PAGE, Action.TOGGLE_ACCESS,
    Action.TOGGLE_AD, Action.TOGGLE_BOOKEND, Action.TOGGLE_INFO_DIALOG,
    Action.TOGGLE_STORY_HAS_AUDIO, Action.TOGGLE_LANDSCAPE,
    Action.TOGGLE_MUTED, Action.TOGGLE_PAGE_HAS_AUDIO, Action.TOGGLE_PAUSED,
    Action.TOGGLE_RTL, Action.TOGGLE_SIDEBAR, Action.TOGGLE_HAS_SIDEBAR,
    Action.TOGGLE_SUPPORTED_BROWSER, Action.TOGGLE_SHARE_MENU,
    Action.TOGGLE_UI, Action.SET_CONSENT_ID]

/-- Reducer equation for the default case: an unknown action logs a
developer error and returns the input state. -/
lemma actions_unknown (s : Snapshot) (a : String) (d : JSVal)
    (h : a ∉ ActionEnum) : actions s a d = .ok ⟨none, true⟩ := by
  simp only [ActionEnum, List.mem_cons, List.mem_singleton, not_or] at h
  obtain ⟨h1, h2, h3, h4, h5, h6, h7, h8, h9, h10, h11, h12, h13, h14, h15,
    h16, h17⟩ := h
  simp [actions, h1, h2, h3, h4, h5, h6, h7, h8, h9, h10, h11, h12, h13,
    h14, h15, h16, h17]


/-- Shape of every successful reducer run: either the input state is
returned unchanged (the same reference), or a fresh merge is returned
whose written keys are exactly the action's frame and whose writes to
boolean-typed keys are all strict booleans. -/
lemma actions_shape (s : Snapshot) (a : String) (d : JSVal) (out : ActOut)
    (h : actions s a d = .ok out) :
    out.fresh = none ∨
      ∃ L : List (String × JSVal), out.fresh = some (assignList s L) ∧
        L.map Prod.fst = frameOf a ∧
        (∀ p ∈ L, p.1 ∈ boolStateKeys → ∃ b : Bool, p.2 = .bool b) := by
  by_cases ha : a ∈ ActionEnum
  case neg =>
    rw [actions_unknown s a d ha] at h
    injection h with h
    subst h
    exact Or.inl rfl
  simp only [ActionEnum, List.mem_cons, List.not_mem_nil, or_false] at ha
  rcases ha with rfl | rfl | rfl | rfl | rfl | rfl | rfl | rfl | rfl | rfl |
    rfl | rfl | rfl | rfl | rfl | rfl | rfl
  · cases hid : getProp d "id" <;> cases hix : getProp d "index" <;>
      rw [actions_changePage, hid, hix] at h
    · exact Except.noConfusion h
    · exact Except.noConfusion h
    · exact Except.noConfusion h
    · injection h with h
      subst h
      refine Or.inr ⟨_, rfl, rfl, ?_⟩
      intro p hp
      fin_cases hp
      · exact fun hm =>
          absurd (show StateProperty.CURRENT_PAGE_ID ∈ boolStateKeys from hm)
            (by decide)
      · exact fun hm =>
          absurd (show StateProperty.CURRENT_PAGE_INDEX ∈ boolStateKeys from hm)
            (by decide)
  · rw [actions_setConsentId] at h
    injection h with h
    subst h
    refine Or.inr ⟨_, rfl, rfl, ?_⟩
    intro p hp
    fin_cases hp
    exact fun hm =>
      absurd (show StateProperty.CONSENT_ID ∈ boolStateKeys from hm)
        (by decide)
  · rw [actions_toggleAccess] at h
    split at h
    · injection h with h
      subst h
      exact Or.inl rfl
    · injection h with h
      subst h
      refine Or.inr ⟨_, rfl, rfl, ?_⟩
      intro p hp
      fin_cases hp <;> exact fun hm => ⟨_, rfl⟩
  · rw [actions_toggleAd] at h
    injection h with h
    subst h
    refine Or.inr ⟨_, rfl, rfl, ?_⟩
    intro p hp
    fin_cases hp <;> exact fun hm => ⟨_, rfl⟩
  · rw [actions_toggleBookend] at h
    split at h
    · injection h with h
      subst h
      exact Or.inl rfl
    · injection h with h
      subst h
      refine Or.inr ⟨_, rfl, rfl, ?_⟩
      intro p hp
      fin_cases hp <;> exact fun hm => ⟨_, rfl⟩
  · rw [actions_toggleInfoDialog] at h
    injection h with h
    subst h
    refine Or.inr ⟨_, rfl, rfl, ?_⟩
    intro p hp
    fin_cases hp <;> exact fun hm => ⟨_, rfl⟩
  · rw [actions_toggleLandscape] at h
    injection h with h
    subst h
    refine Or.inr ⟨_, rfl, rfl, ?_⟩
    intro p hp
    fin_cases hp <;> exact fun hm => ⟨_, rfl⟩
  · rw [actions_toggleMuted] at h
    injection h with h
    subst h
    refine Or.inr ⟨_, rfl, rfl, ?_⟩
    intro p hp
    fin_cases hp <;> exact fun hm => ⟨_, rfl⟩
  · rw [actions_togglePageHasAudio] at h
    injection h with h
    subst h
    refine Or.inr ⟨_, rfl, rfl, ?_⟩
    intro p hp
    fin_cases hp <;> exact fun hm => ⟨_, rfl⟩
  · rw [actions_togglePaused] at h
    injection h with h
    subst h
    refine Or.inr ⟨_, rfl, rfl, ?_⟩
    intro p hp
    fin_cases hp <;> exact fun hm => ⟨_, rfl⟩
  · rw [actions_toggleRtl] at h
    injection h with h
    subst h
    refine Or.inr ⟨_, rfl, rfl, ?_⟩
    intro p hp
    fin_cases hp <;> exact fun hm => ⟨_, rfl⟩
  · rw [actions_toggleShareMenu] at h
    injection h with h
    subst h
    refine Or.inr ⟨_, rfl, rfl, ?_⟩
    intro p hp
    fin_cases hp <;> exact fun hm => ⟨_, rfl⟩
  · rw [actions_toggleSidebar] at h
    split at h
    · injection h with h
      subst h
      exact Or.inl rfl
    · injection h with h
      subst h
      refine Or.inr ⟨_, rfl, rfl, ?_⟩
      intro p hp
      fin_cases hp <;> exact fun hm => ⟨_, rfl⟩
  · rw [actions_toggleHasSidebar] at h
    injection h with h
    subst h
    refine Or.inr ⟨_, rfl, rfl, ?_⟩
    intro p hp
    fin_cases hp <;> exact fun hm => ⟨_, rfl⟩
  · rw [actions_toggleSupportedBrowser] at h
    injection h with h
    subst h
    refine Or.inr ⟨_, rfl, rfl, ?_⟩
    intro p hp
    fin_cases hp <;> exact fun hm => ⟨_, rfl⟩
  · rw [actions_toggleStoryHasAudio] at h
    injection h with h
    subst h
    refine Or.inr ⟨_, rfl, rfl, ?_⟩
    intro p hp
    fin_cases hp <;> exact fun hm => ⟨_, rfl⟩
  · rw [actions_toggleUi] at h
    injection h with h
    subst h
    refine Or.inr ⟨_, rfl, rfl, ?_⟩
    intro p hp
    fin_cases hp
    · exact fun hm => ⟨_, rfl⟩
    · exact fun hm =>
        absurd (show StateProperty.UI_STATE ∈ boolStateKeys from hm)
          (by decide)

/-- Inversion of a successful `dispatch`. -/
lemma dispatch_ok_inv (st : Store) (a : String) (d : JSVal)
    (out : DispatchOut) (h : st.dispatch a d = .ok out) :
    ∃ o : ActOut, actions st.state a d = .ok o ∧
      out.store.state = o.result st.state ∧
      out.store.listeners = st.listeners ∧
      out.events = firedEvents st.state (o.result st.state) st.listeners ∧
      out.logged = o.logged := by
  unfold Store.dispatch at h
  cases hact : actions st.state a d with
  | error e =>
    rw [hact] at h
    exact Except.noConfusion h
  | ok o =>
    rw [hact] at h
    injection h with h
    subst h
    exact ⟨o, rfl, rfl, rfl, rfl, rfl⟩

/-- A dispatch whose reducer run is a no-op returns the same store, fires
no listener and propagates the reducer's log flag. -/
lemma dispatch_noop (st : Store) (a : String) (d : JSVal) (lg : Bool)
    (h : actions st.state a d = .ok ⟨none, lg⟩) :
    st.dispatch a d = .ok ⟨st, [], lg⟩ := by
  unfold Store.dispatch
  rw [h]
  dsimp only [ActOut.result, Option.getD]
  rw [firedEvents_self]

/-- C3: dispatching any action string outside the `Action` enum, with any
payload, leaves the store unchanged (the reducer returns its input state),
fires no listeners for any key, logs a diagnostic, and does not throw. -/
theorem C3_unknown_action_fail_soft (st : Store) (a : String) (d : JSVal)
    (h : a ∉ ActionEnum) : st.dispatch a d = .ok ⟨st, [], true⟩ :=
  dispatch_noop st a d true (actions_unknown st.state a d h)

/-- Witness for C3 at the concrete action string "notanaction". -/
theorem C3_unknown_action_fail_soft_witness :
    (initialStore .defaultMode).dispatch "notanaction" (.bool true) =
      .ok ⟨initialStore .defaultMode, [], true⟩ :=
  C3_unknown_action_fail_soft (initialStore .defaultMode) "notanaction"
    (.bool true) (by decide)

/-- C4: for a key absent from the state snapshot, `get` returns undefined
(and logs) without throwing, and `subscribe` registers nothing and never
invokes the listener — even with `callToInitialize = true` — merely
logging a developer error. -/
theorem C4_unknown_key_get_subscribe (st : Store) (key : String) (l : Nat)
    (c : Bool) (h : hasOwnS st.state key = false) :
    st.get key = ⟨.undef, true⟩ ∧ st.subscribe key l c = ⟨st, [], true⟩ := by
  constructor
  · simp [Store.get, h]
  · simp [Store.subscribe, h]

/-- Witness for C4 at the concrete key "notakey". -/
theorem C4_unknown_key_get_subscribe_witness :
    (initialStore .defaultMode).get "notakey" = ⟨.undef, true⟩ ∧
      (initialStore .defaultMode).subscribe "notakey" 0 true =
        ⟨initialStore .defaultMode, [], true⟩ :=
  C4_unknown_key_get_subscribe (initialStore .defaultMode) "notakey" 0 true
    (by decide)

/-- The reducer succeeds on every input except `CHANGE_PAGE` with a
`null` or `undefined` payload (whose `data.id` read throws). -/
lemma actions_total (s : Snapshot) (a : String) (d : JSVal)
    (h : a = Action.CHANGE_PAGE → d ≠ .null ∧ d ≠ .undef) :
    ∃ o : ActOut, actions s a d = .ok o := by
  by_cases ha : a ∈ ActionEnum
  case neg => exact ⟨_, actions_unknown s a d ha⟩
  simp only [ActionEnum, List.mem_cons, List.not_mem_nil, or_false] at ha
  rcases ha with rfl | rfl | rfl | rfl | rfl | rfl | rfl | rfl | rfl | rfl |
    rfl | rfl | rfl | rfl | rfl | rfl | rfl
  · obtain ⟨hn, hu⟩ := h rfl
    rw [actions_changePage]
    cases d with
    | null => exact absurd rfl hn
    | undef => exact absurd rfl hu
    | bool b => exact ⟨_, rfl⟩
    | num n => exact ⟨_, rfl⟩
    | str s2 => exact ⟨_, rfl⟩
    | obj r f => exact ⟨_, rfl⟩
  · exact ⟨_, actions_setConsentId s d⟩
  · rw [actions_toggleAccess]
    split
    · exact ⟨_, rfl⟩
    · exact ⟨_, rfl⟩
  · exact ⟨_, actions_toggleAd s d⟩
  · rw [actions_toggleBookend]
    split
    · exact ⟨_, rfl⟩
    · exact ⟨_, rfl⟩
  · exact ⟨_, actions_toggleInfoDialog s d⟩
  · exact ⟨_, actions_toggleLandscape s d⟩
  · exact ⟨_, actions_toggleMuted s d⟩
  · exact ⟨_, actions_togglePageHasAudio s d⟩
  · exact ⟨_, actions_togglePaused s d⟩
  · exact ⟨_, actions_toggleRtl s d⟩
  · exact ⟨_, actions_toggleShareMenu s d⟩
  · rw [actions_toggleSidebar]
    split
    · exact ⟨_, rfl⟩
    · exact ⟨_, rfl⟩
  · exact ⟨_, actions_toggleHasSidebar s d⟩
  · exact ⟨_, actions_toggleSupportedBrowser s d⟩
  · exact ⟨_, actions_toggleStoryHasAudio s d⟩
  · exact ⟨_, actions_toggleUi s d⟩

/-- C5 (amended): `get` and `subscribe` are total, and `dispatch`
completes without raising an exception for every action and payload
except `CHANGE_PAGE` with a `null` or `undefined` payload, where the
`data.id` property read throws a TypeError to the caller. (`get` and
`subscribe` are total functions of the embedding; their bodies contain
no throwing operation.) -/
theorem C5_dispatch_no_throw (st : Store) (a : String) (d : JSVal)
    (h : a = Action.CHANGE_PAGE → d ≠ .null ∧ d ≠ .undef) :
    ∃ out : DispatchOut, st.dispatch a d = .ok out := by
  obtain ⟨o, ho⟩ := actions_total st.state a d h
  refine ⟨⟨⟨o.result st.state, st.listeners⟩,
    firedEvents st.state (o.result st.state) st.listeners, o.logged⟩, ?_⟩
  unfold Store.dispatch
  rw [ho]

/-- Witness for C5 with action `TOGGLE_MUTED` and payload `null`. -/
theorem C5_dispatch_no_throw_witness :
    ∃ out : DispatchOut,
      (initialStore .defaultMode).dispatch Action.TOGGLE_MUTED .null =
        .ok out :=
  C5_dispatch_no_throw (initialStore .defaultMode) Action.TOGGLE_MUTED .null
    (by decide)

/-- C5 counterexample: `dispatch(CHANGE_PAGE, null)` evaluates `data.id`
on `null` and throws a TypeError, so the claim that every input to the
public operations completes without raising is false. -/
theorem C5_counterexample :
    (initialStore .defaultMode).dispatch Action.CHANGE_PAGE .null =
      .error () := rfl

/-- Strict equality of a boolean against a non-boolean value is false. -/
lemma strictEq_bool_not_bool (b : Bool) (d : JSVal)
    (hd : ∀ b2 : Bool, d ≠ .bool b2) : strictEq (.bool b) d = false := by
  cases d <;> first | rfl | exact absurd rfl (hd _)

/-- C8: every successful reducer run keeps every key of its input
snapshot, and hence every key of the default snapshot is present in every
store reachable by dispatches from a freshly constructed store (any embed
mode). -/
theorem C8_keys_preserved :
    (∀ (a : String) (s : Snapshot) (d : JSVal) (out : ActOut),
        actions s a d = .ok out → ∀ k : String,
        hasOwnS s k = true → hasOwnS (out.result s) k = true) ∧
    (∀ (m : EmbedMode) (st : Store), Reaches (initialStore m) st →
        ∀ k : String, hasOwnS defaultState k = true →
        hasOwnS st.state k = true) := by
  have hstep : ∀ (a : String) (s : Snapshot) (d : JSVal) (out : ActOut),
      actions s a d = .ok out → ∀ k : String,
      hasOwnS s k = true → hasOwnS (out.result s) k = true := by
    intro a s d out h k hk
    rcases actions_shape s a d out h with hn | ⟨L, hL, _, _⟩
    · rw [ActOut.result, hn, Option.getD_none]
      exact hk
    · rw [ActOut.result, hL, Option.getD_some]
      exact assignList_isSome L s k hk
  refine ⟨hstep, ?_⟩
  intro m st hr k hk
  induction hr with
  | refl => exact assignList_isSome _ _ _ hk
  | step action data out hr2 hd ih =>
    obtain ⟨o, ho, hstate, _, _, _⟩ := dispatch_ok_inv _ _ _ _ hd
    rw [hstate]
    exact hstep action _ data o ho k ih

/-- Witness for C8 at the muted-state key of a default-mode store. -/
theorem C8_keys_preserved_witness :
    hasOwnS (initialStore .defaultMode).state StateProperty.MUTED_STATE =
      true :=
  C8_keys_preserved.2 .defaultMode (initialStore .defaultMode) Reaches.refl
    StateProperty.MUTED_STATE (by decide)

/-- C9: the reducer is pure in the embedding (it never mutates its input),
and for every action of the enum and every payload a successful run leaves
every key outside that action's per-action frame unchanged (the no-op
branches return the input state itself). -/
theorem C9_frame_condition (a : String) (ha : a ∈ ActionEnum) (s : Snapshot)
    (d : JSVal) (out : ActOut) (h : actions s a d = .ok out) (k : String)
    (hk : k ∉ frameOf a) : out.result s k = s k := by
  rcases actions_shape s a d out h with hn | ⟨L, hL, hmap, _⟩
  · rw [ActOut.result, hn, Option.getD_none]
  · rw [ActOut.result, hL, Option.getD_some]
    refine assignList_not_mem L s k ?_
    intro p hp hkp
    exact hk (by rw [← hmap, hkp]; exact List.mem_map_of_mem _ hp)

/-- Witness for C9: `TOGGLE_MUTED` leaves paused-state unchanged. -/
theorem C9_frame_condition_witness :
    (⟨some (assignList defaultState
        [(StateProperty.MUTED_STATE, .bool false)]), false⟩ : ActOut).result
      defaultState StateProperty.PAUSED_STATE =
      defaultState StateProperty.PAUSED_STATE :=
  C9_frame_condition Action.TOGGLE_MUTED (by decide) defaultState
    (.bool false) _ rfl StateProperty.PAUSED_STATE (by decide)

/-- C10: starting from the default snapshot, every boolean-typed key holds
a strict boolean after any sequence of dispatches (the toggles store
`!!data`; `TOGGLE_UI` stores `data === DESKTOP` in desktop-state), and the
`TOGGLE_ACCESS` / `TOGGLE_SIDEBAR` no-op guards compare the raw payload
with strict equality, so a truthy non-boolean payload bypasses the guard
and a fresh snapshot holding `true` is produced. -/
theorem C10_strict_boolean_invariant :
    (∀ st : Store, Reaches (initialStore .defaultMode) st →
      BoolInv st.state) ∧
    (∀ (s : Snapshot) (d : JSVal), BoolInv s → truthy d = true →
      (∀ b : Bool, d ≠ .bool b) →
      actions s Action.TOGGLE_ACCESS d =
        .ok ⟨some (assignList s
          [(StateProperty.ACCESS_STATE, .bool true),
           (StateProperty.PAUSED_STATE, .bool true)]), false⟩ ∧
      actions s Action.TOGGLE_SIDEBAR d =
        .ok ⟨some (assignList s
          [(StateProperty.PAUSED_STATE, .bool true),
           (StateProperty.SIDEBAR_STATE, .bool true)]), false⟩) := by
  constructor
  · intro st hr
    induction hr with
    | refl =>
      intro k hk
      fin_cases hk <;> exact ⟨_, rfl⟩
    | step action data out hr2 hd ih =>
      obtain ⟨o, ho, hstate, _, _, _⟩ := dispatch_ok_inv _ _ _ _ hd
      rw [hstate]
      rcases actions_shape _ _ _ _ ho with hn | ⟨L, hL, _, hbool⟩
      · rw [ActOut.result, hn, Option.getD_none]
        exact ih
      · rw [ActOut.result, hL, Option.getD_some]
        exact BoolInv_assignList L _ ih hbool
  · intro s d hinv htr hd
    obtain ⟨b0, hb0⟩ := hinv StateProperty.ACCESS_STATE (by decide)
    obtain ⟨b1, hb1⟩ := hinv StateProperty.SIDEBAR_STATE (by decide)
    constructor
    · rw [actions_toggleAccess]
      have hg : strictEq (lookupJS s StateProperty.ACCESS_STATE) d = false := by
        simp only [lookupJS, hb0, Option.getD_some]
        exact strictEq_bool_not_bool b0 d hd
      rw [if_neg (by simp [hg]), htr]
    · rw [actions_toggleSidebar]
      have hg : strictEq (lookupJS s StateProperty.SIDEBAR_STATE) d = false := by
        simp only [lookupJS, hb1, Option.getD_some]
        exact strictEq_bool_not_bool b1 d hd
      rw [if_neg (by simp [hg]), htr]

/-- Witness for C10: the truthy non-boolean payload `1` against the
default state, where access-state and sidebar-state are booleans. -/
theorem C10_strict_boolean_invariant_witness :
    actions defaultState Action.TOGGLE_ACCESS (.num 1) =
      .ok ⟨some (assignList defaultState
        [(StateProperty.ACCESS_STATE, .bool true),
         (StateProperty.PAUSED_STATE, .bool true)]), false⟩ ∧
    actions defaultState Action.TOGGLE_SIDEBAR (.num 1) =
      .ok ⟨some (assignList defaultState
        [(StateProperty.PAUSED_STATE, .bool true),
         (StateProperty.SIDEBAR_STATE, .bool true)]), false⟩ :=
  C10_strict_boolean_invariant.2 defaultState (.num 1)
    (by intro k hk; fin_cases hk <;> exact ⟨_, rfl⟩) rfl
    (fun b h => JSVal.noConfusion h)

/-- C1 counterexample: from a state whose access-state is already `true`
while paused-state is `false`, `dispatch(TOGGLE_ACCESS, true)` hits the
no-op guard and returns the same store, so paused-state does not read
`true`; the claim fails for states where access-state already equals the
payload. -/
theorem C1_counterexample :
    accessTrueStore.dispatch Action.TOGGLE_ACCESS (.bool true) =
      .ok ⟨accessTrueStore, [], false⟩ ∧
    (accessTrueStore.get StateProperty.PAUSED_STATE).value ≠ .bool true :=
  ⟨rfl, by decide⟩

/-- C1 (amended): provided access-state is not already strictly equal to
`true`, `dispatch(TOGGLE_ACCESS, true)` yields a state where both
access-state and paused-state read `true`, and a subsequent
`dispatch(TOGGLE_ACCESS, false)` from that state yields a state where
both read `false`. -/
theorem C1_toggle_access_paired (st : Store) (out out2 : DispatchOut)
    (hguard : strictEq (lookupJS st.state StateProperty.ACCESS_STATE)
      (.bool true) = false)
    (h : st.dispatch Action.TOGGLE_ACCESS (.bool true) = .ok out)
    (h2 : out.store.dispatch Action.TOGGLE_ACCESS (.bool false) = .ok out2) :
    (out.store.get StateProperty.ACCESS_STATE).value = .bool true ∧
    (out.store.get StateProperty.PAUSED_STATE).value = .bool true ∧
    (out2.store.get StateProperty.ACCESS_STATE).value = .bool false ∧
    (out2.store.get StateProperty.PAUSED_STATE).value = .bool false := by
  obtain ⟨o, ho, hstate, _, _, _⟩ := dispatch_ok_inv _ _ _ _ h
  rw [actions_toggleAccess, if_neg (by simp [hguard])] at ho
  injection ho with ho
  subst ho
  have hacc : out.store.state StateProperty.ACCESS_STATE =
      some (.bool true) := by
    rw [hstate]
    simp [ActOut.result, assignList, setKey, truthy,
      StateProperty.ACCESS_STATE, StateProperty.PAUSED_STATE]
  have hpau : out.store.state StateProperty.PAUSED_STATE =
      some (.bool true) := by
    rw [hstate]
    simp [ActOut.result, assignList, setKey, truthy,
      StateProperty.ACCESS_STATE, StateProperty.PAUSED_STATE]
  obtain ⟨o2, ho2, hstate2, _, _, _⟩ := dispatch_ok_inv _ _ _ _ h2
  have hg2 : strictEq (lookupJS out.store.state StateProperty.ACCESS_STATE)
      (.bool false) = false := by
    simp only [lookupJS, hacc, Option.getD_some]
    rfl
  rw [actions_toggleAccess, if_neg (by simp [hg2])] at ho2
  injection ho2 with ho2
  subst ho2
  have hacc2 : out2.store.state StateProperty.ACCESS_STATE =
      some (.bool false) := by
    rw [hstate2]
    simp [ActOut.result, assignList, setKey, truthy,
      StateProperty.ACCESS_STATE, StateProperty.PAUSED_STATE]
  have hpau2 : out2.store.state StateProperty.PAUSED_STATE =
      some (.bool false) := by
    rw [hstate2]
    simp [ActOut.result, assignList, setKey, truthy,
      StateProperty.ACCESS_STATE, StateProperty.PAUSED_STATE]
  refine ⟨?_, ?_, ?_, ?_⟩ <;>
    simp [Store.get, hasOwnS, lookupJS, hacc, hpau, hacc2, hpau2]

/-- Witness for C1 starting from a fresh default-mode store. -/
theorem C1_toggle_access_paired_witness :
    (accessBothOnStore.get StateProperty.ACCESS_STATE).value = .bool true ∧
    (accessBothOnStore.get StateProperty.PAUSED_STATE).value = .bool true ∧
    (accessBothOffStore.get StateProperty.ACCESS_STATE).value = .bool false ∧
    (accessBothOffStore.get StateProperty.PAUSED_STATE).value =
      .bool false :=
  C1_toggle_access_paired (initialStore .defaultMode)
    ⟨accessBothOnStore, [], false⟩ ⟨accessBothOffStore, [], false⟩
    (by decide) rfl rfl

/-- C2: after a `dispatch(TOGGLE_SIDEBAR, b)`, dispatching the same
`TOGGLE_SIDEBAR(b)` again is a no-op: the reducer returns the very same
state reference, so the second dispatch returns the same store, fires no
listeners (for any set of subscribed listeners), and logs nothing. -/
theorem C2_toggle_sidebar_idempotent (b : Bool) (st : Store)
    (out1 : DispatchOut)
    (h : st.dispatch Action.TOGGLE_SIDEBAR (.bool b) = .ok out1) :
    out1.store.dispatch Action.TOGGLE_SIDEBAR (.bool b) =
      .ok ⟨out1.store, [], false⟩ := by
  obtain ⟨o, ho, hstate, _, _, _⟩ := dispatch_ok_inv _ _ _ _ h
  rw [actions_toggleSidebar] at ho
  have hsb : lookupJS out1.store.state StateProperty.SIDEBAR_STATE =
      .bool b := by
    split at ho
    case isTrue hg =>
      injection ho with ho
      subst ho
      rw [hstate]
      exact (strictEq_bool_iff _ b).mp hg
    case isFalse hg =>
      injection ho with ho
      subst ho
      rw [hstate]
      simp [ActOut.result, lookupJS, assignList, setKey, truthy,
        StateProperty.SIDEBAR_STATE, StateProperty.PAUSED_STATE]
  have hact2 : actions out1.store.state Action.TOGGLE_SIDEBAR (.bool b) =
      .ok ⟨none, false⟩ := by
    rw [actions_toggleSidebar, hsb, if_pos (by simp [strictEq])]
  exact dispatch_noop _ _ _ _ hact2

/-- Witness for C2 at `b = true` from a fresh default-mode store. -/
theorem C2_toggle_sidebar_idempotent_witness :
    sidebarStore.dispatch Action.TOGGLE_SIDEBAR (.bool true) =
      .ok ⟨sidebarStore, [], false⟩ :=
  C2_toggle_sidebar_idempotent true (initialStore .defaultMode)
    ⟨sidebarStore, [], false⟩ rfl

/-- C6: on every successful dispatch, exactly the listeners subscribed to
keys whose value differs (by `!==`) between the pre- and post-dispatch
snapshots are invoked, each with the new value (per key, handlers fire in
subscription order, as `firedEvents` lists them); in particular a listener
subscribed only to muted-state is never invoked by a `TOGGLE_PAUSED`
dispatch, which changes only paused-state. -/
theorem C6_listener_scoping :
    (∀ (st : Store) (a : String) (d : JSVal) (out : DispatchOut),
        st.dispatch a d = .ok out → ∀ (l : Nat) (v : JSVal),
        ((l, v) ∈ out.events ↔
          ∃ e ∈ st.listeners, l ∈ e.fns ∧
            strictEq (lookupJS st.state e.key)
              (lookupJS out.store.state e.key) = false ∧
            v = lookupJS out.store.state e.key)) ∧
    (∀ (st : Store) (d : JSVal) (out : DispatchOut),
        st.dispatch Action.TOGGLE_PAUSED d = .ok out →
        ∀ l : Nat,
        (∀ e ∈ st.listeners, l ∈ e.fns →
          e.key = StateProperty.MUTED_STATE) →
        ∀ v : JSVal, (l, v) ∉ out.events) := by
  have hmem : ∀ (st : Store) (a : String) (d : JSVal) (out : DispatchOut),
      st.dispatch a d = .ok out → ∀ (l : Nat) (v : JSVal),
      ((l, v) ∈ out.events ↔
        ∃ e ∈ st.listeners, l ∈ e.fns ∧
          strictEq (lookupJS st.state e.key)
            (lookupJS out.store.state e.key) = false ∧
          v = lookupJS out.store.state e.key) := by
    intro st a d out h l v
    obtain ⟨o, ho, hstate, _, hev, _⟩ := dispatch_ok_inv _ _ _ _ h
    rw [hev, hstate]
    exact mem_firedEvents _ _ _ _ _
  refine ⟨hmem, ?_⟩
  intro st d out h l hscope v hmemv
  rw [hmem st _ d out h l v] at hmemv
  obtain ⟨e, he, hl, hch, hv⟩ := hmemv
  have hekey := hscope e he hl
  obtain ⟨o, ho, hstate, _, _, _⟩ := dispatch_ok_inv _ _ _ _ h
  rw [actions_togglePaused] at ho
  injection ho with ho
  subst ho
  rw [hstate, hekey] at hch
  have hunch : lookupJS
      ((⟨some (assignList st.state
        [(StateProperty.PAUSED_STATE, .bool (truthy d))]), false⟩ :
          ActOut).result st.state)
      StateProperty.MUTED_STATE = lookupJS st.state
        StateProperty.MUTED_STATE := by
    simp [ActOut.result, lookupJS, assignList, setKey,
      StateProperty.MUTED_STATE, StateProperty.PAUSED_STATE]
  rw [hunch, strictEq_refl] at hch
  exact Bool.noConfusion hch

/-- Witness for C6: the muted-state listener 7 does not fire on
`dispatch(TOGGLE_PAUSED, true)`. -/
theorem C6_listener_scoping_witness :
    (7, JSVal.bool true) ∉ pausedDispatchOut.events :=
  C6_listener_scoping.2 mutedListenerStore (.bool true) pausedDispatchOut
    rfl 7 (by decide) (.bool true)

/-- C7: a default-mode store starts with `uistate = MOBILE (0)`, and
`dispatch(TOGGLE_UI, t)` sets ui-state to `t` and desktop-state to the
boolean `t === DESKTOP`; in particular `dispatch(TOGGLE_UI, DESKTOP)`
makes `get('uistate')` return `DESKTOP (1)` and `get('desktopstate')`
return `true` (see the witness). -/
theorem C7_toggle_ui :
    (initialStore .defaultMode).get StateProperty.UI_STATE =
      ⟨UIType.MOBILE, false⟩ ∧
    ∀ (st : Store) (t : JSVal) (out : DispatchOut),
      st.dispatch Action.TOGGLE_UI t = .ok out →
      out.store.get StateProperty.UI_STATE = ⟨t, false⟩ ∧
      out.store.get StateProperty.DESKTOP_STATE =
        ⟨.bool (strictEq t UIType.DESKTOP), false⟩ := by
  constructor
  · rfl
  · intro st t out h
    obtain ⟨o, ho, hstate, _, _, _⟩ := dispatch_ok_inv _ _ _ _ h
    rw [actions_toggleUi] at ho
    injection ho with ho
    subst ho
    have hui : out.store.state StateProperty.UI_STATE = some t := by
      rw [hstate]
      simp [ActOut.result, assignList, setKey,
        StateProperty.UI_STATE, StateProperty.DESKTOP_STATE]
    have hdesk : out.store.state StateProperty.DESKTOP_STATE =
        some (.bool (strictEq t UIType.DESKTOP)) := by
      rw [hstate]
      simp [ActOut.result, assignList, setKey,
        StateProperty.UI_STATE, StateProperty.DESKTOP_STATE]
    constructor
    · simp [Store.get, hasOwnS, lookupJS, hui]
    · simp [Store.get, hasOwnS, lookupJS, hdesk]

/-- Witness for C7: the spec's scenario, `dispatch(TOGGLE_UI, DESKTOP)`
from a fresh default-mode store. -/
theorem C7_toggle_ui_witness :
    desktopStore.get StateProperty.UI_STATE = ⟨UIType.DESKTOP, false⟩ ∧
    desktopStore.get StateProperty.DESKTOP_STATE = ⟨.bool true, false⟩ :=
  C7_toggle_ui.2 (initialStore .defaultMode) UIType.DESKTOP
    ⟨desktopStore, [], false⟩ rfl
